import Mathlib

/-!
Verification of the Apple Continuity "Proximity Pairing" advertisement
decoder of AirPodsDesktop (src/Source/Core/AppleCP.cpp, namespace
Core::AppleCP).

The accessor bodies are translated directly from AppleCP.cpp.  The struct
layout, the size/offset constants and the `Battery` result type live in the
header AppleCP.h, which is not part of the provided sources; the definitions
whose doc comments start with "Modelled from the spec:" reconstruct those
parts from the specification's field table and constant formulas.
Machine integers are modelled as `Nat`; bit-field truthiness follows the
C++ rule "non-zero means true".
-/

namespace AppleCP

/-- Core::AirPods::Side — which physical earbud. -/
inductive Side
  | Left
  | Right
deriving DecidableEq, Repr

/-- Core::AirPods::Model — known hardware models plus Unknown. -/
inductive Model
  | Unknown
  | AirPods_1
  | AirPods_2
  | AirPods_Pro
deriving DecidableEq, Repr

/-- Modelled from the spec: Core::AirPods::Battery (defined in the absent
header) is an optional battery reading; constructing it from an in-range
raw value stores that value, and the sentinel case is the absent value. -/
abbrev Battery := Option Nat

/-- Modelled from the spec: raw battery values 0–10 encode percentages in
10% steps, so the percentage carried by a `Battery` is the stored raw
value times 10 (absent stays absent). -/
def batteryPercent (b : Battery) : Option Nat :=
  b.map (fun v => v * 10)

/-- The packed battery sub-record of the AirPods advertisement view.
Field names follow the C++ members used by AppleCP.cpp; nibbles and
one-bit flags are `Nat` (unsigned bit-fields). -/
structure BatteryFields where
  curr : Nat
  anot : Nat
  caseBox : Nat
  currCharging : Nat
  anotCharging : Nat
  caseCharging : Nat
deriving DecidableEq, Repr

/-- The fixed-layout advertisement view (class Core::AppleCP::AirPods).
Field names follow the C++ members used by AppleCP.cpp: the two header
bytes, then the status fields the accessors read. -/
structure AirPods where
  packetType : Nat
  remainingLength : Nat
  modelId : Nat
  broadcastFrom : Nat
  battery : BatteryFields
  lidState : Nat
  bothInCase : Nat
  currInEar : Nat
  anotInEar : Nat
deriving DecidableEq, Repr

/-- Modelled from the spec: the fixed tag constant
PacketType::ProximityPairing, declared in the absent header.  The spec
calls it "a fixed tag constant"; the concrete value (Apple Continuity's
proximity-pairing sub-type byte 0x07) does not affect any theorem below. -/
def ProximityPairing : Nat := 0x07

/-- Modelled from the spec: AdvertisementSize = sizeof(AirPods), the full
fixed record size, a compile-time constant of the absent header.  Fixed
here at 27 bytes (2 header bytes + 25 payload bytes), consistent with the
self-describing remainingLength formula; no theorem below depends on the
particular value. -/
def AdvertisementSize : Nat := 27

/-- Modelled from the spec: offsetof(Header, remainingLength).  The spec's
header table lists packetType (1 byte) followed by remainingLength
(1 byte), so remainingLength sits at offset 1. -/
def remainingLengthOffset : Nat := 1

/-- Modelled from the spec: sizeof(Header::remainingLength) — one byte. -/
def remainingLengthSize : Nat := 1

/-- shouldRemainingLength from AirPods::IsValid:
sizeof(AirPods) - (offsetof(Header, remainingLength) + sizeof(Header::remainingLength)). -/
def shouldRemainingLength : Nat :=
  AdvertisementSize - (remainingLengthOffset + remainingLengthSize)

/-- AirPods::IsValid (AppleCP.cpp).  The buffer is a byte sequence; the two
header fields are the bytes at offsets 0 and 1 (spec header table).  The
length test, the tag test and the remaining-length test are translated
verbatim. -/
def IsValid (data : List Nat) : Bool :=
  if data.length ≠ AdvertisementSize then
    false
  else if data.getD 0 0 ≠ ProximityPairing ∨ data.getD 1 0 ≠ shouldRemainingLength then
    false
  else
    true

/-- AirPods::GetBroadcastedSide: broadcastFrom == 1 ? Left : Right. -/
def GetBroadcastedSide (a : AirPods) : Side :=
  if a.broadcastFrom = 1 then Side.Left else Side.Right

/-- AirPods::IsLeftBroadcasted. -/
def IsLeftBroadcasted (a : AirPods) : Bool :=
  GetBroadcastedSide a == Side.Left

/-- AirPods::IsRightBroadcasted. -/
def IsRightBroadcasted (a : AirPods) : Bool :=
  GetBroadcastedSide a == Side.Right

/-- AirPods::GetModel: the switch over modelId. -/
def GetModel (a : AirPods) : Model :=
  if a.modelId = 0x2002 then Model.AirPods_1
  else if a.modelId = 0x200F then Model.AirPods_2
  else if a.modelId = 0x200E then Model.AirPods_Pro
  else Model.Unknown

/-- AirPods::GetLeftBattery.  `val >= 0` of the C++ source is vacuous for
an unsigned value and drops out. -/
def GetLeftBattery (a : AirPods) : Battery :=
  let val := if IsLeftBroadcasted a then a.battery.curr else a.battery.anot
  if val ≤ 10 then some val else none

/-- AirPods::GetRightBattery. -/
def GetRightBattery (a : AirPods) : Battery :=
  let val := if IsRightBroadcasted a then a.battery.curr else a.battery.anot
  if val ≤ 10 then some val else none

/-- AirPods::GetCaseBattery. -/
def GetCaseBattery (a : AirPods) : Battery :=
  let val := a.battery.caseBox
  if val ≤ 10 then some val else none

/-- AirPods::IsLeftCharging: selected charging bit != 0. -/
def IsLeftCharging (a : AirPods) : Bool :=
  (if IsLeftBroadcasted a then a.battery.currCharging else a.battery.anotCharging) != 0

/-- AirPods::IsRightCharging. -/
def IsRightCharging (a : AirPods) : Bool :=
  (if IsRightBroadcasted a then a.battery.currCharging else a.battery.anotCharging) != 0

/-- AirPods::IsBothPodsInCase: the bothInCase flag as a boolean. -/
def IsBothPodsInCase (a : AirPods) : Bool :=
  a.bothInCase != 0

/-- AirPods::IsLidOpened: the disjunction of the eight comparisons of the
C++ source, in source order (1..7 then 0). -/
def IsLidOpened (a : AirPods) : Bool :=
  a.lidState == 1 || a.lidState == 2 || a.lidState == 3 || a.lidState == 4 ||
    a.lidState == 5 || a.lidState == 6 || a.lidState == 7 || a.lidState == 0

/-- AirPods::IsCaseCharging: the caseCharging flag as a boolean. -/
def IsCaseCharging (a : AirPods) : Bool :=
  a.battery.caseCharging != 0

/-- AirPods::IsLeftInEar: the charging quirk filter, then the side-selected
in-ear bit. -/
def IsLeftInEar (a : AirPods) : Bool :=
  !IsLeftCharging a && ((if IsLeftBroadcasted a then a.currInEar else a.anotInEar) != 0)

/-- AirPods::IsRightInEar. -/
def IsRightInEar (a : AirPods) : Bool :=
  !IsRightCharging a && ((if IsRightBroadcasted a then a.currInEar else a.anotInEar) != 0)

/-- Modelled from the spec: the byte layout of the fixed record (the
struct overlay lives in the absent header).  Bytes 0–1 are the header;
the status fields of the spec's field table are packed as: modelId
little-endian at bytes 2–3; broadcastFrom, currInEar, anotInEar,
bothInCase as bits 0–3 of byte 4; curr/anot battery nibbles in byte 5;
caseBox nibble and the three charging bits in byte 6; lidState at byte 7;
the remaining bytes are unused.  Reading a validated buffer through this
layout yields the advertisement view. -/
def deserialize (data : List Nat) : AirPods :=
  { packetType := data.getD 0 0
    remainingLength := data.getD 1 0
    modelId := data.getD 2 0 + 256 * data.getD 3 0
    broadcastFrom := data.getD 4 0 % 2
    currInEar := data.getD 4 0 / 2 % 2
    anotInEar := data.getD 4 0 / 4 % 2
    bothInCase := data.getD 4 0 / 8 % 2
    battery :=
      { curr := data.getD 5 0 % 16
        anot := data.getD 5 0 / 16 % 16
        caseBox := data.getD 6 0 % 16
        currCharging := data.getD 6 0 / 16 % 2
        anotCharging := data.getD 6 0 / 32 % 2
        caseCharging := data.getD 6 0 / 64 % 2 }
    lidState := data.getD 7 0 }

/-- Modelled from the spec: constructing an advertisement buffer from an
advertisement view, inverse to `deserialize` on in-range fields; the
unused tail bytes are zero. -/
def serialize (a : AirPods) : List Nat :=
  [a.packetType, a.remainingLength,
   a.modelId % 256, a.modelId / 256,
   a.broadcastFrom + 2 * a.currInEar + 4 * a.anotInEar + 8 * a.bothInCase,
   a.battery.curr + 16 * a.battery.anot,
   a.battery.caseBox + 16 * a.battery.currCharging + 32 * a.battery.anotCharging +
     64 * a.battery.caseCharging,
   a.lidState] ++ List.replicate 19 0

/-- The advertisement view assembled from a set of status field values,
with the two header fields set to the values IsValid demands. -/
def mkView (modelId broadcastFrom curr anot caseBox currCharging anotCharging
    caseCharging lidState bothInCase currInEar anotInEar : Nat) : AirPods :=
  { packetType := ProximityPairing
    remainingLength := shouldRemainingLength
    modelId := modelId
    broadcastFrom := broadcastFrom
    battery :=
      { curr := curr
        anot := anot
        caseBox := caseBox
        currCharging := currCharging
        anotCharging := anotCharging
        caseCharging := caseCharging }
    lidState := lidState
    bothInCase := bothInCase
    currInEar := currInEar
    anotInEar := anotInEar }

/-- The ranges within which every status field of the packed record is
representable: a 16-bit modelId, one-bit flags, 4-bit battery nibbles and
a one-byte lidState. -/
def InRange (a : AirPods) : Prop :=
  a.modelId < 65536 ∧ a.broadcastFrom < 2 ∧ a.currInEar < 2 ∧ a.anotInEar < 2 ∧
    a.bothInCase < 2 ∧ a.battery.curr < 16 ∧ a.battery.anot < 16 ∧
    a.battery.caseBox < 16 ∧ a.battery.currCharging < 2 ∧ a.battery.anotCharging < 2 ∧
    a.battery.caseCharging < 2 ∧ a.lidState < 256

instance (a : AirPods) : Decidable (InRange a) := by
  unfold InRange
  infer_instance

/-- A concrete well-formed advertisement buffer used by the witnesses. -/
def sampleBuffer : List Nat :=
  serialize (mkView 0x200F 1 9 10 4 0 1 1 3 0 1 0)

/-- The sentinel decode each of the three battery accessors inlines:
raw values 0–10 are kept, anything else becomes the absent value. -/
def decodeRaw (v : Nat) : Battery :=
  if v ≤ 10 then some v else none

theorem IsValid_iff (data : List Nat) :
    IsValid data = true ↔
      data.length = AdvertisementSize ∧ data.getD 0 0 = ProximityPairing ∧
        data.getD 1 0 = shouldRemainingLength := by
  unfold IsValid
  by_cases h1 : data.length = AdvertisementSize <;>
    by_cases h2 : data.getD 0 0 = ProximityPairing <;>
      by_cases h3 : data.getD 1 0 = shouldRemainingLength <;>
        simp [h1, h2, h3]

/-- C1: IsValid accepts exactly the buffers of length AdvertisementSize
whose packetType byte is the ProximityPairing tag and whose
remainingLength byte is AdvertisementSize − (offset + size of
remainingLength); any length mismatch rejects, and from an accepted
buffer, changing any one of the three fields while the other two are held
fixed rejects. -/
theorem IsValid_characterization (data : List Nat) :
    (IsValid data = true ↔
      data.length = AdvertisementSize ∧ data.getD 0 0 = ProximityPairing ∧
        data.getD 1 0 = shouldRemainingLength) ∧
    (data.length ≠ AdvertisementSize → IsValid data = false) ∧
    (IsValid data = true →
      (∀ d2 : List Nat, d2.getD 0 0 = data.getD 0 0 → d2.getD 1 0 = data.getD 1 0 →
        d2.length ≠ data.length → IsValid d2 = false) ∧
      (∀ d2 : List Nat, d2.length = data.length → d2.getD 1 0 = data.getD 1 0 →
        d2.getD 0 0 ≠ data.getD 0 0 → IsValid d2 = false) ∧
      (∀ d2 : List Nat, d2.length = data.length → d2.getD 0 0 = data.getD 0 0 →
        d2.getD 1 0 ≠ data.getD 1 0 → IsValid d2 = false)) := by
  refine ⟨IsValid_iff data, ?_, ?_⟩
  · intro h
    have := IsValid_iff data
    cases hv : IsValid data
    · rfl
    · exact absurd ((this.mp hv).1) h
  · intro hv
    obtain ⟨hl, ht, hr⟩ := (IsValid_iff data).mp hv
    refine ⟨?_, ?_, ?_⟩ <;> intro d2 ha hb hc
    · cases h2 : IsValid d2
      · rfl
      · exact absurd (((IsValid_iff d2).mp h2).1) (by rw [ha, hb] at *; omega)
    · cases h2 : IsValid d2
      · rfl
      · exact absurd (((IsValid_iff d2).mp h2).2.1) (by rw [ht] at hc; exact hc)
    · cases h2 : IsValid d2
      · rfl
      · exact absurd (((IsValid_iff d2).mp h2).2.2) (by rw [hr] at hc; exact hc)

/-- C1 witness: the characterization instantiated on the concrete sample
buffer, with every hypothesis discharged by evaluation. -/
theorem IsValid_characterization_witness :
    IsValid sampleBuffer = true ∧
    IsValid (0 :: sampleBuffer.tail) = false ∧
    IsValid (sampleBuffer.head! :: 0 :: sampleBuffer.tail.tail) = false ∧
    IsValid (sampleBuffer ++ [0]) = false := by
  have h := IsValid_characterization sampleBuffer
  have hv : IsValid sampleBuffer = true := by decide
  refine ⟨hv, ?_, ?_, ?_⟩
  · exact (h.2.2 hv).2.1 (0 :: sampleBuffer.tail) (by decide) (by decide) (by decide)
  · exact (h.2.2 hv).2.2 (sampleBuffer.head! :: 0 :: sampleBuffer.tail.tail)
      (by decide) (by decide) (by decide)
  · exact (h.2.2 hv).1 (sampleBuffer ++ [0]) (by decide) (by decide) (by decide)

/-- C2: broadcastFrom = 1 resolves the broadcasted side to Left and maps
curr to the left battery and anot to the right battery; any other
broadcastFrom value resolves to Right and inverts the mapping. -/
theorem side_battery_mapping (a : AirPods) :
    (a.broadcastFrom = 1 →
      GetBroadcastedSide a = Side.Left ∧
      GetLeftBattery a = decodeRaw a.battery.curr ∧
      GetRightBattery a = decodeRaw a.battery.anot) ∧
    (a.broadcastFrom ≠ 1 →
      GetBroadcastedSide a = Side.Right ∧
      GetRightBattery a = decodeRaw a.battery.curr ∧
      GetLeftBattery a = decodeRaw a.battery.anot) := by
  by_cases h : a.broadcastFrom = 1 <;>
    simp [GetBroadcastedSide, GetLeftBattery, GetRightBattery, IsLeftBroadcasted,
      IsRightBroadcasted, decodeRaw, beq_iff_eq, h]

/-- C2 witness: the mapping evaluated on concrete views broadcasting from
the left (broadcastFrom = 1) and from the right (broadcastFrom = 0). -/
theorem side_battery_mapping_witness :
    GetBroadcastedSide (mkView 0x200F 1 9 10 4 0 1 1 3 0 1 0) = Side.Left ∧
    GetLeftBattery (mkView 0x200F 1 9 10 4 0 1 1 3 0 1 0) = some 9 ∧
    GetRightBattery (mkView 0x200F 1 9 10 4 0 1 1 3 0 1 0) = some 10 ∧
    GetBroadcastedSide (mkView 0x200F 0 9 10 4 0 1 1 3 0 1 0) = Side.Right ∧
    GetRightBattery (mkView 0x200F 0 9 10 4 0 1 1 3 0 1 0) = some 9 ∧
    GetLeftBattery (mkView 0x200F 0 9 10 4 0 1 1 3 0 1 0) = some 10 := by
  have h1 := (side_battery_mapping (mkView 0x200F 1 9 10 4 0 1 1 3 0 1 0)).1 (by decide)
  have h2 := (side_battery_mapping (mkView 0x200F 0 9 10 4 0 1 1 3 0 1 0)).2 (by decide)
  refine ⟨h1.1, ?_, ?_, h2.1, ?_, ?_⟩
  · rw [h1.2.1]; decide
  · rw [h1.2.2]; decide
  · rw [h2.2.1]; decide
  · rw [h2.2.2]; decide

/-- C3: each battery accessor decodes its selected raw slot by the
sentinel rule — a raw value in [0,10] yields exactly that value, whose
percentage is the value times ten, and every raw value above 10 yields
the absent value. -/
theorem battery_sentinel (a : AirPods) (v : Nat) :
    (v ≤ 10 → decodeRaw v = some v ∧ batteryPercent (decodeRaw v) = some (v * 10)) ∧
    (10 < v → decodeRaw v = none) ∧
    GetLeftBattery a =
      decodeRaw (if IsLeftBroadcasted a then a.battery.curr else a.battery.anot) ∧
    GetRightBattery a =
      decodeRaw (if IsRightBroadcasted a then a.battery.curr else a.battery.anot) ∧
    GetCaseBattery a = decodeRaw a.battery.caseBox := by
  refine ⟨?_, ?_, ?_, ?_, ?_⟩
  · intro h
    simp [decodeRaw, batteryPercent, h]
  · intro h
    simp [decodeRaw, Nat.not_le.mpr h]
  · by_cases h : IsLeftBroadcasted a = true <;> simp [GetLeftBattery, decodeRaw, h]
  · by_cases h : IsRightBroadcasted a = true <;> simp [GetRightBattery, decodeRaw, h]
  · simp [GetCaseBattery, decodeRaw]

/-- C3 witness: raw nibble 10 decodes to 100% and raw nibble 11 decodes
to absent, checked through the theorem at a concrete view. -/
theorem battery_sentinel_witness :
    decodeRaw 10 = some 10 ∧ batteryPercent (decodeRaw 10) = some 100 ∧
    decodeRaw 11 = none ∧
    GetCaseBattery (mkView 0x200F 1 9 10 11 0 1 1 3 0 1 0) = none := by
  have h10 := (battery_sentinel (mkView 0x200F 1 9 10 11 0 1 1 3 0 1 0) 10).1 (by decide)
  have h11 := (battery_sentinel (mkView 0x200F 1 9 10 11 0 1 1 3 0 1 0) 11).2.1 (by decide)
  have hc := (battery_sentinel (mkView 0x200F 1 9 10 11 0 1 1 3 0 1 0) 11).2.2.2.2
  exact ⟨h10.1, h10.2, h11, by rw [hc]; decide⟩

/-- C4: the in-ear accessors select the currInEar or anotInEar bit by the
broadcast side and force the result to false whenever the same side's
resolved charging flag is true; in particular a broadcasting side with
currCharging and currInEar both set reads as not in ear. -/
theorem inear_charging_quirk (a : AirPods) :
    (IsLeftCharging a = false →
      IsLeftInEar a = ((if IsLeftBroadcasted a then a.currInEar else a.anotInEar) != 0)) ∧
    (IsLeftCharging a = true → IsLeftInEar a = false) ∧
    (IsRightCharging a = false →
      IsRightInEar a = ((if IsRightBroadcasted a then a.currInEar else a.anotInEar) != 0)) ∧
    (IsRightCharging a = true → IsRightInEar a = false) ∧
    (IsLeftBroadcasted a = true → a.battery.currCharging ≠ 0 → a.currInEar ≠ 0 →
      IsLeftInEar a = false) ∧
    (IsRightBroadcasted a = true → a.battery.currCharging ≠ 0 → a.currInEar ≠ 0 →
      IsRightInEar a = false) := by
  refine ⟨?_, ?_, ?_, ?_, ?_, ?_⟩
  · intro h
    simp [IsLeftInEar, h]
  · intro h
    simp [IsLeftInEar, h]
  · intro h
    simp [IsRightInEar, h]
  · intro h
    simp [IsRightInEar, h]
  · intro hb hc _
    simp [IsLeftInEar, IsLeftCharging, hb, hc]
  · intro hb hc _
    simp [IsRightInEar, IsRightCharging, hb, hc]

/-- C4 witness: a left-broadcasting view with the charging and in-ear
bits of the broadcasting side both set reads as not in ear. -/
theorem inear_charging_quirk_witness :
    IsLeftBroadcasted (mkView 0x200F 1 9 10 4 1 0 0 3 0 1 0) = true ∧
    IsLeftInEar (mkView 0x200F 1 9 10 4 1 0 0 3 0 1 0) = false := by
  refine ⟨by decide, ?_⟩
  exact (inear_charging_quirk (mkView 0x200F 1 9 10 4 1 0 0 3 0 1 0)).2.2.2.2.1
    (by decide) (by decide) (by decide)

/-- C5: the lid reads as open exactly for lidState values 0 through 7,
and as closed for every other value, in particular 8. -/
theorem lid_opened_iff (a : AirPods) :
    (IsLidOpened a = true ↔ a.lidState ≤ 7) ∧
    (a.lidState = 8 → IsLidOpened a = false) := by
  constructor
  · simp only [IsLidOpened, Bool.or_eq_true, beq_iff_eq]
    omega
  · intro h
    simp [IsLidOpened, h]

/-- C5 witness: lid states 0, 7 and 8 evaluated through the theorem. -/
theorem lid_opened_iff_witness :
    IsLidOpened (mkView 0x200F 1 9 10 4 0 1 1 0 0 1 0) = true ∧
    IsLidOpened (mkView 0x200F 1 9 10 4 0 1 1 7 0 1 0) = true ∧
    IsLidOpened (mkView 0x200F 1 9 10 4 0 1 1 8 0 1 0) = false := by
  refine ⟨?_, ?_, ?_⟩
  · exact (lid_opened_iff (mkView 0x200F 1 9 10 4 0 1 1 0 0 1 0)).1.mpr (by decide)
  · exact (lid_opened_iff (mkView 0x200F 1 9 10 4 0 1 1 7 0 1 0)).1.mpr (by decide)
  · exact (lid_opened_iff (mkView 0x200F 1 9 10 4 0 1 1 8 0 1 0)).2 (by decide)

/-- C6: the model registry maps 0x2002, 0x200F and 0x200E to AirPods_1,
AirPods_2 and AirPods_Pro, every other modelId to Unknown, and validity
of a buffer never depends on the modelId (acceptance is decided by
length and the two header bytes alone). -/
theorem model_registry (a : AirPods) :
    (a.modelId = 0x2002 → GetModel a = Model.AirPods_1) ∧
    (a.modelId = 0x200F → GetModel a = Model.AirPods_2) ∧
    (a.modelId = 0x200E → GetModel a = Model.AirPods_Pro) ∧
    (a.modelId ≠ 0x2002 → a.modelId ≠ 0x200F → a.modelId ≠ 0x200E →
      GetModel a = Model.Unknown) ∧
    (∀ d2 : List Nat, d2.length = AdvertisementSize → d2.getD 0 0 = ProximityPairing →
      d2.getD 1 0 = shouldRemainingLength → IsValid d2 = true) := by
  refine ⟨?_, ?_, ?_, ?_, ?_⟩
  · intro h
    simp [GetModel, h]
  · intro h
    simp [GetModel, h]
  · intro h
    simp [GetModel, h]
  · intro h1 h2 h3
    simp [GetModel, h1, h2, h3]
  · intro d2 h1 h2 h3
    exact (IsValid_iff d2).mpr ⟨h1, h2, h3⟩

/-- C6 witness: modelId 0x200F decodes to AirPods_2, modelId 0xFFFF
decodes to Unknown, and a buffer carrying 0xFFFF still validates. -/
theorem model_registry_witness :
    GetModel (mkView 0x200F 1 9 10 4 0 1 1 3 0 1 0) = Model.AirPods_2 ∧
    GetModel (mkView 0xFFFF 1 9 10 4 0 1 1 3 0 1 0) = Model.Unknown ∧
    IsValid (serialize (mkView 0xFFFF 1 9 10 4 0 1 1 3 0 1 0)) = true := by
  refine ⟨?_, ?_, ?_⟩
  · exact (model_registry (mkView 0x200F 1 9 10 4 0 1 1 3 0 1 0)).2.1 (by decide)
  · exact (model_registry (mkView 0xFFFF 1 9 10 4 0 1 1 3 0 1 0)).2.2.2.1
      (by decide) (by decide) (by decide)
  · exact (model_registry (mkView 0xFFFF 1 9 10 4 0 1 1 3 0 1 0)).2.2.2.2
      (serialize (mkView 0xFFFF 1 9 10 4 0 1 1 3 0 1 0)) (by decide) (by decide) (by decide)

/-- C7: for every in-range assignment of the status fields, the buffer
built from the corresponding view validates, and decoding it through the
layout reproduces the view exactly — so every accessor of the decoded
view agrees with the accessor of the original, with no drift. -/
theorem serialize_roundtrip (a : AirPods) (h : InRange a)
    (hp : a.packetType = ProximityPairing)
    (hr : a.remainingLength = shouldRemainingLength) :
    IsValid (serialize a) = true ∧ deserialize (serialize a) = a := by
  obtain ⟨hm, hb, hi1, hi2, hbc, hc1, hc2, hc3, hg1, hg2, hg3, hl⟩ := h
  constructor
  · refine (IsValid_iff (serialize a)).mpr ⟨?_, ?_, ?_⟩ <;>
      simp [serialize, hp, hr, AdvertisementSize]
  · obtain ⟨p, r, m, bf, ⟨cu, an, cb, g1, g2, g3⟩, ls, bic, i1, i2⟩ := a
    simp only [serialize, deserialize, List.cons_append, List.getD_cons_zero,
      List.getD_cons_succ] at *
    simp only [AirPods.mk.injEq, BatteryFields.mk.injEq]
    refine ⟨trivial, trivial, ?_, ?_, ⟨?_, ?_, ?_, ?_, ?_, ?_⟩, trivial, ?_, ?_, ?_⟩ <;> omega

/-- C7 witness: the round trip evaluated at a concrete in-range view. -/
theorem serialize_roundtrip_witness :
    IsValid (serialize (mkView 0x200F 1 9 10 4 0 1 1 3 0 1 0)) = true ∧
    deserialize (serialize (mkView 0x200F 1 9 10 4 0 1 1 3 0 1 0)) =
      mkView 0x200F 1 9 10 4 0 1 1 3 0 1 0 :=
  serialize_roundtrip (mkView 0x200F 1 9 10 4 0 1 1 3 0 1 0)
    (by decide) (by decide) (by decide)

/-- C8: every accessor is total and degrades gracefully — each battery
accessor yields either the absent value or a value at most 10, the model
accessor always yields one of the four model constructors, and the side
accessor always yields one of the two sides; the remaining boolean
accessors are total by type. -/
theorem accessor_totality (a : AirPods) :
    (GetLeftBattery a = none ∨ ∃ v, v ≤ 10 ∧ GetLeftBattery a = some v) ∧
    (GetRightBattery a = none ∨ ∃ v, v ≤ 10 ∧ GetRightBattery a = some v) ∧
    (GetCaseBattery a = none ∨ ∃ v, v ≤ 10 ∧ GetCaseBattery a = some v) ∧
    (GetModel a = Model.Unknown ∨ GetModel a = Model.AirPods_1 ∨
      GetModel a = Model.AirPods_2 ∨ GetModel a = Model.AirPods_Pro) ∧
    (GetBroadcastedSide a = Side.Left ∨ GetBroadcastedSide a = Side.Right) := by
  refine ⟨?_, ?_, ?_, ?_, ?_⟩
  · by_cases h : (if IsLeftBroadcasted a then a.battery.curr else a.battery.anot) ≤ 10
    · exact Or.inr ⟨_, h, by simp [GetLeftBattery, h]⟩
    · exact Or.inl (by simp [GetLeftBattery, h])
  · by_cases h : (if IsRightBroadcasted a then a.battery.curr else a.battery.anot) ≤ 10
    · exact Or.inr ⟨_, h, by simp [GetRightBattery, h]⟩
    · exact Or.inl (by simp [GetRightBattery, h])
  · by_cases h : a.battery.caseBox ≤ 10
    · exact Or.inr ⟨_, h, by simp [GetCaseBattery, h]⟩
    · exact Or.inl (by simp [GetCaseBattery, h])
  · unfold GetModel
    split
    · exact Or.inr (Or.inl rfl)
    · split
      · exact Or.inr (Or.inr (Or.inl rfl))
      · split
        · exact Or.inr (Or.inr (Or.inr rfl))
        · exact Or.inl rfl
  · unfold GetBroadcastedSide
    split
    · exact Or.inl rfl
    · exact Or.inr rfl

/-- C9: decoding is deterministic and stateless — validity and every
accessor are functions of the buffer bytes and the view fields alone, so
equal inputs always produce equal outputs. -/
theorem decode_deterministic (d1 d2 : List Nat) (a1 a2 : AirPods)
    (hd : d1 = d2) (ha : a1 = a2) :
    IsValid d1 = IsValid d2 ∧ deserialize d1 = deserialize d2 ∧
    GetBroadcastedSide a1 = GetBroadcastedSide a2 ∧ GetModel a1 = GetModel a2 ∧
    GetLeftBattery a1 = GetLeftBattery a2 ∧ GetRightBattery a1 = GetRightBattery a2 ∧
    GetCaseBattery a1 = GetCaseBattery a2 ∧ IsLeftCharging a1 = IsLeftCharging a2 ∧
    IsRightCharging a1 = IsRightCharging a2 ∧ IsLeftInEar a1 = IsLeftInEar a2 ∧
    IsRightInEar a1 = IsRightInEar a2 ∧ IsLidOpened a1 = IsLidOpened a2 ∧
    IsBothPodsInCase a1 = IsBothPodsInCase a2 ∧ IsCaseCharging a1 = IsCaseCharging a2 := by
  subst hd
  subst ha
  exact ⟨rfl, rfl, rfl, rfl, rfl, rfl, rfl, rfl, rfl, rfl, rfl, rfl, rfl, rfl⟩

/-- C9 witness: determinism applied to two textually equal concrete
inputs. -/
theorem decode_deterministic_witness :
    IsValid sampleBuffer = IsValid sampleBuffer ∧
    GetModel (deserialize sampleBuffer) = GetModel (deserialize sampleBuffer) :=
  ⟨(decode_deterministic sampleBuffer sampleBuffer (deserialize sampleBuffer)
      (deserialize sampleBuffer) rfl rfl).1,
   (decode_deterministic sampleBuffer sampleBuffer (deserialize sampleBuffer)
      (deserialize sampleBuffer) rfl rfl).2.2.2.1⟩

/-- C10: for every view, exactly one of IsLeftBroadcasted and
IsRightBroadcasted holds, and the left/right accessors for battery,
charging and in-ear read complementary curr/anot slots — never the same
slot for both sides. -/
theorem sides_complementary (a : AirPods) :
    (IsLeftBroadcasted a = !IsRightBroadcasted a) ∧
    ((IsLeftBroadcasted a = true ∧ IsRightBroadcasted a = false ∧
      GetLeftBattery a = decodeRaw a.battery.curr ∧
      GetRightBattery a = decodeRaw a.battery.anot ∧
      IsLeftCharging a = (a.battery.currCharging != 0) ∧
      IsRightCharging a = (a.battery.anotCharging != 0) ∧
      IsLeftInEar a = (!IsLeftCharging a && (a.currInEar != 0)) ∧
      IsRightInEar a = (!IsRightCharging a && (a.anotInEar != 0))) ∨
     (IsLeftBroadcasted a = false ∧ IsRightBroadcasted a = true ∧
      GetLeftBattery a = decodeRaw a.battery.anot ∧
      GetRightBattery a = decodeRaw a.battery.curr ∧
      IsLeftCharging a = (a.battery.anotCharging != 0) ∧
      IsRightCharging a = (a.battery.currCharging != 0) ∧
      IsLeftInEar a = (!IsLeftCharging a && (a.anotInEar != 0)) ∧
      IsRightInEar a = (!IsRightCharging a && (a.currInEar != 0)))) := by
  by_cases h : a.broadcastFrom = 1
  · refine ⟨?_, Or.inl ⟨?_, ?_, ?_, ?_, ?_, ?_, ?_, ?_⟩⟩ <;>
      simp [IsLeftBroadcasted, IsRightBroadcasted, GetBroadcastedSide, GetLeftBattery,
        GetRightBattery, IsLeftCharging, IsRightCharging, IsLeftInEar, IsRightInEar,
        decodeRaw, h]
  · refine ⟨?_, Or.inr ⟨?_, ?_, ?_, ?_, ?_, ?_, ?_, ?_⟩⟩ <;>
      simp [IsLeftBroadcasted, IsRightBroadcasted, GetBroadcastedSide, GetLeftBattery,
        GetRightBattery, IsLeftCharging, IsRightCharging, IsLeftInEar, IsRightInEar,
        decodeRaw, h]

end AppleCP
